import Mathlib

/-!
Shallow embedding of `src/mcpclient.py` (an MCP chat client bridging an
OpenAI-style chat-completions API with a locally spawned tool-host
subprocess), together with theorems checking the natural-language
specification against it.

Modelling conventions:
* Python strings on which the client itself performs character-level
  operations (`.strip()`, `.lower()`, `.endswith(...)`) are modelled as
  `List Char`; all other strings stay `String`.
* The external effects the client drives — `json.loads`, the MCP session's
  `call_tool`, and `client.chat.completions.create` — are supplied as an
  environment (`Env`) of oracle functions; fallible calls return `Except`,
  mirroring Python exceptions.
* `process_query` is translated line by line from the source and returns a
  `QueryTrace` recording every LLM API call it issued (with the exact
  submitted message history and attached tool schema), every tool
  invocation request it sent, the final state of its local `messages`
  list, and the returned value or the exception that propagated.
-/

/-- Opaque JSON payload (a tool's input schema); the client passes it
through without inspecting it. -/
structure JsonData where
  raw : String
deriving DecidableEq, Repr

/-- A parsed JSON argument object, the value produced by a successful
`json.loads`; the client passes it to `call_tool` without inspecting it. -/
structure ToolArgs where
  fields : String
deriving DecidableEq, Repr

/-- A tool descriptor as returned by the MCP session's `list_tools`. -/
structure MCPTool where
  name : String
  description : String
  inputSchema : JsonData
deriving DecidableEq, Repr

/-- The `function` member of one entry of the function-calling schema array
built in `process_query` (keys `name`, `description`, `input_schema`). -/
structure OAIFunction where
  name : String
  description : String
  input_schema : JsonData
deriving DecidableEq, Repr

/-- One entry of the function-calling schema array: a dict with keys
`type` (always the literal `"function"`) and `function`. -/
structure OAITool where
  type : String
  function : OAIFunction
deriving DecidableEq, Repr

/-- The `function` member of a tool call in an LLM completion: tool name
plus the JSON-encoded argument blob. -/
structure ToolCallFunction where
  name : String
  arguments : String
deriving DecidableEq, Repr

/-- One tool-call request inside an LLM completion: correlation id plus
the called function. -/
structure ToolCall where
  id : String
  function : ToolCallFunction
deriving DecidableEq, Repr

/-- One message of the conversation, as the dicts the client builds and
the `model_dump()` of an assistant message: a role, optional text content,
the tool calls carried by an assistant message (empty otherwise), and the
`tool_call_id` correlation field of a tool-role message (absent
otherwise). -/
structure ChatMessage where
  role : String
  content : Option String
  tool_calls : List ToolCall
  tool_call_id : Option String
deriving DecidableEq, Repr

/-- The first choice of an LLM completion: `finish_reason` plus the
assistant message. -/
structure LLMChoice where
  finish_reason : String
  message : ChatMessage
deriving DecidableEq, Repr

/-- One content item of an MCP tool result; only its `text` is used. -/
structure TextContent where
  text : String
deriving DecidableEq, Repr

/-- The payload returned by the MCP session's `call_tool`. -/
structure CallToolResult where
  content : List TextContent
deriving DecidableEq, Repr

/-- The exceptions that can propagate out of one `process_query` turn. -/
inductive QueryError where
  /-- The chat-completions API call failed (raised). -/
  | upstreamAPIError (detail : String)
  /-- `finish_reason` was `"tool_calls"` but the completion carried no
  tool-call entry, so `tool_calls[0]` raised. -/
  | noToolCallEntry
  /-- `json.loads` failed on the tool call's argument blob. -/
  | malformedToolArguments (blob : String)
  /-- The MCP session's `call_tool` failed (raised). -/
  | toolInvocationError (detail : String)
  /-- The tool result's `content` list was empty, so `content[0]` raised. -/
  | emptyToolResult
deriving DecidableEq, Repr

deriving instance DecidableEq for Except

/-- One chat-completions API call as issued: the submitted message history
and the attached tool schema (`none` when the `tools` parameter was not
passed). -/
structure LLMCall where
  messages : List ChatMessage
  tools : Option (List OAITool)
deriving DecidableEq, Repr

/-- The observable record of one `process_query` turn. -/
structure QueryTrace where
  /-- Every chat-completions API call issued, in order. -/
  llm_calls : List LLMCall
  /-- Every tool invocation request sent to the MCP session, in order. -/
  tool_invocations : List (String × ToolArgs)
  /-- The final state of the turn's local `messages` list (at return, or
  at the point the propagating exception was raised). -/
  history : List ChatMessage
  /-- The returned answer, or the exception that propagated. -/
  result : Except QueryError (Option String)
deriving DecidableEq, Repr

/-- The external world `process_query` interacts with: the tool catalog
the MCP session reports, `json.loads`, the session's `call_tool`, and the
chat-completions endpoint (second argument is the optional `tools`
parameter). -/
structure Env where
  tools : List MCPTool
  json_loads : String → Option ToolArgs
  call_tool : String → ToolArgs → Except String CallToolResult
  chat_completions_create :
    List ChatMessage → Option (List OAITool) → Except String LLMChoice

/-- The dict `{"role": "user", "content": query}`. -/
def userMessage (query : String) : ChatMessage :=
  { role := "user", content := some query, tool_calls := [], tool_call_id := none }

/-- The dict `{"role": "tool", "content": text, "tool_call_id": id}`. -/
def toolResultMessage (text : String) (id : String) : ChatMessage :=
  { role := "tool", content := some text, tool_calls := [], tool_call_id := some id }

/-- The Tool Registry Adapter: the list comprehension in `process_query`
that turns the MCP tool descriptors into the function-calling schema
array. -/
def available_tools (tools : List MCPTool) : List OAITool :=
  tools.map fun tool =>
    { type := "function",
      function :=
        { name := tool.name,
          description := tool.description,
          input_schema := tool.inputSchema } }

/-- `MCPClient.process_query`, translated line by line. The local
`messages` list is created fresh for the turn, holding only the user
message. The first API call attaches the tool schema; if its
`finish_reason` is `"tool_calls"`, only `tool_calls[0]` is read, its
arguments parsed, the tool invoked, the assistant message and a tool-role
message appended, and a second API call without the `tools` parameter
produces the returned answer. Otherwise the first completion's content is
returned directly. -/
def process_query (env : Env) (query : String) : QueryTrace :=
  let messages : List ChatMessage := [userMessage query]
  let tools_schema := available_tools env.tools
  let call1 : LLMCall := ⟨messages, some tools_schema⟩
  match env.chat_completions_create messages (some tools_schema) with
  | Except.error e => ⟨[call1], [], messages, Except.error (QueryError.upstreamAPIError e)⟩
  | Except.ok content =>
    if content.finish_reason = "tool_calls" then
      match content.message.tool_calls with
      | [] => ⟨[call1], [], messages, Except.error QueryError.noToolCallEntry⟩
      | tool_call :: _ =>
        let tool_name := tool_call.function.name
        match env.json_loads tool_call.function.arguments with
        | none =>
          ⟨[call1], [], messages,
            Except.error (QueryError.malformedToolArguments tool_call.function.arguments)⟩
        | some tool_args =>
          match env.call_tool tool_name tool_args with
          | Except.error e =>
            ⟨[call1], [(tool_name, tool_args)], messages,
              Except.error (QueryError.toolInvocationError e)⟩
          | Except.ok result =>
            let messages1 := messages ++ [content.message]
            match result.content with
            | [] =>
              ⟨[call1], [(tool_name, tool_args)], messages1,
                Except.error QueryError.emptyToolResult⟩
            | c0 :: _ =>
              let messages2 := messages1 ++ [toolResultMessage c0.text tool_call.id]
              let call2 : LLMCall := ⟨messages2, none⟩
              match env.chat_completions_create messages2 none with
              | Except.error e =>
                ⟨[call1, call2], [(tool_name, tool_args)], messages2,
                  Except.error (QueryError.upstreamAPIError e)⟩
              | Except.ok resp2 =>
                ⟨[call1, call2], [(tool_name, tool_args)], messages2,
                  Except.ok resp2.message.content⟩
    else
      ⟨[call1], [], messages, Except.ok content.message.content⟩

/-- Outcome of `MCPClient.connect_to_server`: either the unsupported-type
error is raised before any subprocess exists, or a subprocess is spawned
with the chosen interpreter command and the script as its sole argument. -/
inductive ConnectOutcome where
  | unsupportedScriptType
  | spawned (command : String) (args : List (List Char))
deriving DecidableEq, Repr

/-- `MCPClient.connect_to_server`: checks the script extension, raises for
anything but `.py` / `.js`, otherwise spawns `python` resp. `node` on the
script. -/
def connect_to_server (server_script_path : List Char) : ConnectOutcome :=
  let is_python := List.isSuffixOf ".py".toList server_script_path
  let is_js := List.isSuffixOf ".js".toList server_script_path
  if !(is_python || is_js) then
    ConnectOutcome.unsupportedScriptType
  else
    ConnectOutcome.spawned (if is_python then "python" else "node") [server_script_path]

/-- Python `str.strip()`: remove leading and trailing whitespace. -/
def strip (s : List Char) : List Char :=
  ((s.dropWhile Char.isWhitespace).reverse.dropWhile Char.isWhitespace).reverse

/-- Python `str.lower()`. -/
def lower (s : List Char) : List Char :=
  s.map Char.toLower

/-- One observable event of a `chat_loop` iteration. -/
inductive TurnEvent where
  /-- The stripped input matched `quit` case-insensitively: loop breaks. -/
  | quitEvent
  /-- The turn succeeded and the answer was printed. -/
  | answerPrinted (query : String) (trace : QueryTrace) (answer : Option String)
  /-- The turn raised; the error was caught and printed by the per-turn
  `except` handler and the loop continues. -/
  | errorPrinted (query : String) (trace : QueryTrace) (e : QueryError)
deriving DecidableEq, Repr

/-- `MCPClient.chat_loop` over a list of input lines: strip the line,
break on a case-insensitive `quit`, otherwise run `process_query` with
the whole body guarded by the per-turn `except` handler, so an error is
printed and the loop moves on to the next line. -/
def chat_loop (env : Env) : List (List Char) → List TurnEvent
  | [] => []
  | line :: rest =>
    let query := strip line
    if lower query = "quit".toList then
      [TurnEvent.quitEvent]
    else
      let tr := process_query env (String.mk query)
      match tr.result with
      | Except.ok ans => TurnEvent.answerPrinted (String.mk query) tr ans :: chat_loop env rest
      | Except.error e => TurnEvent.errorPrinted (String.mk query) tr e :: chat_loop env rest

/-- Observable record of `main` after a successful connect. -/
structure MainTrace where
  loop_events : List TurnEvent
  cleanup_count : Nat
deriving DecidableEq, Repr

/-- The body of `main` after `connect_to_server` succeeds: `chat_loop`
runs inside `try`, and the `finally` block invokes `cleanup` exactly once
on every exit path. -/
def main_run (env : Env) (inputs : List (List Char)) : MainTrace :=
  { loop_events := chat_loop env inputs, cleanup_count := 1 }

/-- Number of loop iterations that delegated to the Orchestrator
(`process_query`); the quit branch breaks before delegating. -/
def orchestrator_invocations : List TurnEvent → Nat
  | [] => 0
  | TurnEvent.quitEvent :: es => orchestrator_invocations es
  | TurnEvent.answerPrinted _ _ _ :: es => orchestrator_invocations es + 1
  | TurnEvent.errorPrinted _ _ _ :: es => orchestrator_invocations es + 1

/-! ### Concrete environment fixtures used by witnesses and counterexamples -/

/-- Sample tool descriptor (mirrors the spec's end-to-end scenario). -/
def listDirTool : MCPTool :=
  ⟨"list_dir", "List files in a directory", ⟨"\x7b\"type\": \"object\"\x7d"⟩⟩

/-- Sample JSON argument blob for `list_dir`. -/
def sampleArgsBlob : String := "\x7b\"path\": \"/tmp\"\x7d"

/-- Sample tool-call request carried by an LLM completion. -/
def sampleToolCall : ToolCall := ⟨"call_1", ⟨"list_dir", sampleArgsBlob⟩⟩

/-- Assistant message carrying exactly one tool-call request. -/
def asstToolCallMsg : ChatMessage := ⟨"assistant", none, [sampleToolCall], none⟩

/-- Assistant message answering after the tool round-trip. -/
def finalAnswerMsg : ChatMessage := ⟨"assistant", some "a.txt, b.txt", [], none⟩

/-- Assistant message for the plain-answer scenario. -/
def plainAnswerMsg : ChatMessage := ⟨"assistant", some "4", [], none⟩

/-- Environment whose LLM always answers in plain text (never a tool call). -/
def envPlain : Env :=
  { tools := [listDirTool],
    json_loads := fun _ => none,
    call_tool := fun _ _ => Except.error "no tool host",
    chat_completions_create := fun _ _ => Except.ok ⟨"stop", plainAnswerMsg⟩ }

/-- Environment for the happy-path tool round-trip: the first call (with a
tool schema attached) requests `list_dir`; the second call (no schema)
answers. -/
def envTool : Env :=
  { tools := [listDirTool],
    json_loads := fun s => if s = sampleArgsBlob then some ⟨"path=/tmp"⟩ else none,
    call_tool := fun n _ =>
      if n = "list_dir" then Except.ok ⟨[⟨"a.txt, b.txt"⟩]⟩
      else Except.error "unknown tool",
    chat_completions_create := fun _ tools =>
      match tools with
      | some _ => Except.ok ⟨"tool_calls", asstToolCallMsg⟩
      | none => Except.ok ⟨"stop", finalAnswerMsg⟩ }

/-! ### Helper lemmas -/

/-- Two suffixes of the same list that have the same length are equal. -/
theorem suffix_unique {α : Type} {s t l : List α} (hs : s <:+ l) (ht : t <:+ l)
    (hlen : s.length = t.length) : s = t := by
  obtain ⟨u, hu⟩ := hs
  obtain ⟨v, hv⟩ := ht
  have h : u ++ s = v ++ t := by rw [hu, hv]
  have hul : u.length = v.length := by
    have hl := congrArg List.length h
    simp only [List.length_append] at hl
    omega
  exact (List.append_inj h hul).2

/-- The submitted history of a turn's first LLM API call, read off a loop
event. -/
def first_llm_messages (ev : TurnEvent) : Option (List ChatMessage) :=
  match ev with
  | TurnEvent.quitEvent => none
  | TurnEvent.answerPrinted _ tr _ => (tr.llm_calls.head?).map LLMCall.messages
  | TurnEvent.errorPrinted _ tr _ => (tr.llm_calls.head?).map LLMCall.messages

/-! ### C4 -/

/-- C4: a query whose first completion does not signal a tool call issues
exactly one LLM API call, performs zero tool invocations, and returns that
completion's text content verbatim. -/
theorem process_query_plain_answer (env : Env) (query : String) (c : LLMChoice)
    (h1 : env.chat_completions_create [userMessage query]
        (some (available_tools env.tools)) = Except.ok c)
    (hfin : ¬ c.finish_reason = "tool_calls") :
    process_query env query =
      { llm_calls := [⟨[userMessage query], some (available_tools env.tools)⟩],
        tool_invocations := [],
        history := [userMessage query],
        result := Except.ok c.message.content } := by
  simp only [process_query, h1]
  rw [if_neg hfin]

/-- Witness for C4 at the concrete plain-answer environment. -/
theorem process_query_plain_answer_witness :
    process_query envPlain "What is 2+2?" =
      { llm_calls := [⟨[userMessage "What is 2+2?"], some (available_tools envPlain.tools)⟩],
        tool_invocations := [],
        history := [userMessage "What is 2+2?"],
        result := Except.ok (some "4") } :=
  process_query_plain_answer envPlain "What is 2+2?" ⟨"stop", plainAnswerMsg⟩ rfl (by decide)

/-! ### C1 -/

/-- C1: a query whose first completion has finish reason `tool_calls`
issues exactly two LLM API calls and exactly one tool invocation; the
tool's result text is appended to the second call's submitted history as a
tool-role message whose `tool_call_id` equals the originating tool call's
id; the second call attaches no tool schema; and the second completion's
content is returned. -/
theorem process_query_tool_call_flow (env : Env) (query : String)
    (c resp2 : LLMChoice) (tc : ToolCall) (tcs : List ToolCall) (args : ToolArgs)
    (r : CallToolResult) (c0 : TextContent) (cs : List TextContent)
    (h1 : env.chat_completions_create [userMessage query]
        (some (available_tools env.tools)) = Except.ok c)
    (hfin : c.finish_reason = "tool_calls")
    (htc : c.message.tool_calls = tc :: tcs)
    (hargs : env.json_loads tc.function.arguments = some args)
    (hcall : env.call_tool tc.function.name args = Except.ok r)
    (hr : r.content = c0 :: cs)
    (h2 : env.chat_completions_create
        [userMessage query, c.message, toolResultMessage c0.text tc.id] none
        = Except.ok resp2) :
    process_query env query =
      { llm_calls :=
          [⟨[userMessage query], some (available_tools env.tools)⟩,
           ⟨[userMessage query, c.message, toolResultMessage c0.text tc.id], none⟩],
        tool_invocations := [(tc.function.name, args)],
        history := [userMessage query, c.message, toolResultMessage c0.text tc.id],
        result := Except.ok resp2.message.content } := by
  simp only [process_query, h1, hfin, htc, hargs, hcall, hr]
  simp only [List.cons_append, List.nil_append, List.singleton_append] at h2 ⊢
  simp [h2]

/-- Witness for C1 at the concrete tool round-trip environment. -/
theorem process_query_tool_call_flow_witness :
    process_query envTool "list files in /tmp" =
      { llm_calls :=
          [⟨[userMessage "list files in /tmp"], some (available_tools envTool.tools)⟩,
           ⟨[userMessage "list files in /tmp", asstToolCallMsg,
             toolResultMessage "a.txt, b.txt" "call_1"], none⟩],
        tool_invocations := [("list_dir", ⟨"path=/tmp"⟩)],
        history := [userMessage "list files in /tmp", asstToolCallMsg,
                    toolResultMessage "a.txt, b.txt" "call_1"],
        result := Except.ok (some "a.txt, b.txt") } :=
  process_query_tool_call_flow envTool "list files in /tmp"
    ⟨"tool_calls", asstToolCallMsg⟩ ⟨"stop", finalAnswerMsg⟩ sampleToolCall []
    ⟨"path=/tmp"⟩ ⟨[⟨"a.txt, b.txt"⟩]⟩ ⟨"a.txt, b.txt"⟩ []
    rfl rfl rfl (by decide) (by decide) rfl rfl

/-! ### C3 -/

/-- The argument blob carried by a `MalformedToolArguments` failure, if the
result is one. -/
def malformed_arg_of : Except QueryError (Option String) → Option String
  | Except.error (QueryError.malformedToolArguments blob) => some blob
  | _ => none

/-- Environment whose first completion carries two tool-call requests. -/
def secondToolCall : ToolCall := ⟨"call_2", ⟨"other_tool", "ignored-blob"⟩⟩

/-- Assistant message carrying two concurrent tool-call requests. -/
def asstTwoToolCallsMsg : ChatMessage :=
  ⟨"assistant", none, [sampleToolCall, secondToolCall], none⟩

/-- Like `envTool`, but the first completion requests two tools at once. -/
def envMulti : Env :=
  { envTool with
    chat_completions_create := fun _ tools =>
      match tools with
      | some _ => Except.ok ⟨"tool_calls", asstTwoToolCallsMsg⟩
      | none => Except.ok ⟨"stop", finalAnswerMsg⟩ }

/-- C3: when a completion carries one or more tool-call requests, only the
first entry is honored: the invocations sent to the tool host are exactly
those obtained from the first entry's name and parsed arguments (so at
most one), and a malformed-arguments failure can only ever cite the first
entry's blob — additional entries cause no invocation and no error. -/
theorem only_first_tool_call_honored (env : Env) (query : String) (c : LLMChoice)
    (tc : ToolCall) (tcs : List ToolCall)
    (h1 : env.chat_completions_create [userMessage query]
        (some (available_tools env.tools)) = Except.ok c)
    (hfin : c.finish_reason = "tool_calls")
    (htc : c.message.tool_calls = tc :: tcs) :
    (process_query env query).tool_invocations
        = ((env.json_loads tc.function.arguments).map
            fun args => (tc.function.name, args)).toList ∧
    (process_query env query).tool_invocations.length ≤ 1 ∧
    malformed_arg_of (process_query env query).result
        = (if (env.json_loads tc.function.arguments).isNone
           then some tc.function.arguments else none) := by
  rcases hj : env.json_loads tc.function.arguments with _ | args
  · refine ⟨?_, ?_, ?_⟩ <;>
      simp [process_query, h1, hfin, htc, hj, malformed_arg_of]
  · rcases hc : env.call_tool tc.function.name args with e | r
    · refine ⟨?_, ?_, ?_⟩ <;>
        simp [process_query, h1, hfin, htc, hj, hc, malformed_arg_of]
    · rcases hr : r.content with _ | ⟨c0, cs⟩
      · refine ⟨?_, ?_, ?_⟩ <;>
          simp [process_query, h1, hfin, htc, hj, hc, hr, malformed_arg_of]
      · rcases h2 : env.chat_completions_create
            [userMessage query, c.message, toolResultMessage c0.text tc.id] none
            with e2 | resp2 <;>
        · refine ⟨?_, ?_, ?_⟩ <;>
            simp [process_query, h1, hfin, htc, hj, hc, hr, h2, malformed_arg_of]

/-- Witness for C3: with two tool-call entries in the completion, exactly
the first one is invoked and no error cites the second. -/
theorem only_first_tool_call_honored_witness :
    (process_query envMulti "list files in /tmp").tool_invocations
        = ((envMulti.json_loads sampleArgsBlob).map
            fun args => ("list_dir", args)).toList ∧
    (process_query envMulti "list files in /tmp").tool_invocations.length ≤ 1 ∧
    malformed_arg_of (process_query envMulti "list files in /tmp").result
        = (if (envMulti.json_loads sampleArgsBlob).isNone
           then some sampleArgsBlob else none) :=
  only_first_tool_call_honored envMulti "list files in /tmp"
    ⟨"tool_calls", asstTwoToolCallsMsg⟩ sampleToolCall [secondToolCall] rfl rfl rfl

/-! ### C5 -/

/-- Like `envTool`, but the tool host returns an error for every call. -/
def envToolErr : Env :=
  { envTool with call_tool := fun _ _ => Except.error "tool host returned an error" }

/-- C5: when the tool host returns an error for the call-tool request, the
turn fails with `ToolInvocationError`; the history at the failure point is
exactly the user message — in particular it holds no forged tool-result
message (and the assistant tool-call message had not yet been appended,
since the source appends it only after `call_tool` returns). -/
theorem tool_invocation_error_turn (env : Env) (query : String) (c : LLMChoice)
    (tc : ToolCall) (tcs : List ToolCall) (args : ToolArgs) (e : String)
    (h1 : env.chat_completions_create [userMessage query]
        (some (available_tools env.tools)) = Except.ok c)
    (hfin : c.finish_reason = "tool_calls")
    (htc : c.message.tool_calls = tc :: tcs)
    (hargs : env.json_loads tc.function.arguments = some args)
    (hcall : env.call_tool tc.function.name args = Except.error e) :
    process_query env query =
      { llm_calls := [⟨[userMessage query], some (available_tools env.tools)⟩],
        tool_invocations := [(tc.function.name, args)],
        history := [userMessage query],
        result := Except.error (QueryError.toolInvocationError e) } := by
  simp [process_query, h1, hfin, htc, hargs, hcall]

/-- Witness for C5 at the failing-tool-host environment. -/
theorem tool_invocation_error_turn_witness :
    process_query envToolErr "list files in /tmp" =
      { llm_calls := [⟨[userMessage "list files in /tmp"],
                      some (available_tools envToolErr.tools)⟩],
        tool_invocations := [("list_dir", ⟨"path=/tmp"⟩)],
        history := [userMessage "list files in /tmp"],
        result := Except.error
          (QueryError.toolInvocationError "tool host returned an error") } :=
  tool_invocation_error_turn envToolErr "list files in /tmp"
    ⟨"tool_calls", asstToolCallMsg⟩ sampleToolCall [] ⟨"path=/tmp"⟩
    "tool host returned an error" rfl rfl rfl (by decide) rfl

/-! ### C10 -/

/-- Like `envTool`, but `json.loads` rejects every argument blob. -/
def envBadArgs : Env :=
  { envTool with json_loads := fun _ => none }

/-- C10: when the tool-call argument blob fails to parse, the turn fails
with `MalformedToolArguments` before any tool invocation, and the history
still holds only the user message — no assistant tool-call message and no
tool-result message were appended. -/
theorem malformed_arguments_abort_turn (env : Env) (query : String) (c : LLMChoice)
    (tc : ToolCall) (tcs : List ToolCall)
    (h1 : env.chat_completions_create [userMessage query]
        (some (available_tools env.tools)) = Except.ok c)
    (hfin : c.finish_reason = "tool_calls")
    (htc : c.message.tool_calls = tc :: tcs)
    (hargs : env.json_loads tc.function.arguments = none) :
    process_query env query =
      { llm_calls := [⟨[userMessage query], some (available_tools env.tools)⟩],
        tool_invocations := [],
        history := [userMessage query],
        result := Except.error
          (QueryError.malformedToolArguments tc.function.arguments) } := by
  simp [process_query, h1, hfin, htc, hargs]

/-- Witness for C10 at the unparseable-arguments environment. -/
theorem malformed_arguments_abort_turn_witness :
    process_query envBadArgs "list files in /tmp" =
      { llm_calls := [⟨[userMessage "list files in /tmp"],
                      some (available_tools envBadArgs.tools)⟩],
        tool_invocations := [],
        history := [userMessage "list files in /tmp"],
        result := Except.error (QueryError.malformedToolArguments sampleArgsBlob) } :=
  malformed_arguments_abort_turn envBadArgs "list files in /tmp"
    ⟨"tool_calls", asstToolCallMsg⟩ sampleToolCall [] rfl rfl rfl rfl

/-! ### C2 -/

/-- C2 counterexample: the `messages` list is local to `process_query`, so
nothing persists across queries. Running two queries in the loop, the
second query's first LLM call submits a history holding only its own user
message — the first query's user message is absent. -/
theorem history_not_persisted_across_queries :
    ((chat_loop envPlain ["q1".toList, "q2".toList])[1]?).map first_llm_messages
        = some (some [userMessage "q2"]) ∧
    userMessage "q1" ∉ [userMessage "q2"] := by
  refine ⟨by decide, by decide⟩

/-- C2 amended: the conversation history is per-query, not per-session.
Every query starts a fresh history holding only its own user message (the
first LLM call submits exactly that), and within the query the history is
append-only: every submitted history begins with the user message, and the
final history extends every submitted history without reordering or
mutation. -/
theorem per_query_history_fresh_append_only (env : Env) (query : String) :
    ((process_query env query).llm_calls.head?).map LLMCall.messages
        = some [userMessage query] ∧
    (∀ call ∈ (process_query env query).llm_calls,
        ∃ t, call.messages = userMessage query :: t) ∧
    (∀ call ∈ (process_query env query).llm_calls,
        ∃ t, (process_query env query).history = call.messages ++ t) := by
  rcases h1 : env.chat_completions_create [userMessage query]
      (some (available_tools env.tools)) with e | c
  · refine ⟨?_, ?_, ?_⟩ <;> simp [process_query, h1]
  · by_cases hf : c.finish_reason = "tool_calls"
    · rcases htc : c.message.tool_calls with _ | ⟨tc, tcs⟩
      · refine ⟨?_, ?_, ?_⟩ <;> simp [process_query, h1, hf, htc]
      · rcases hj : env.json_loads tc.function.arguments with _ | args
        · refine ⟨?_, ?_, ?_⟩ <;> simp [process_query, h1, hf, htc, hj]
        · rcases hc : env.call_tool tc.function.name args with e | r
          · refine ⟨?_, ?_, ?_⟩ <;> simp [process_query, h1, hf, htc, hj, hc]
          · rcases hr : r.content with _ | ⟨c0, cs⟩
            · refine ⟨?_, ?_, ?_⟩ <;> simp [process_query, h1, hf, htc, hj, hc, hr]
            · rcases h2 : env.chat_completions_create
                  [userMessage query, c.message, toolResultMessage c0.text tc.id] none
                  with e2 | resp2 <;>
              · refine ⟨?_, ?_, ?_⟩ <;>
                  simp [process_query, h1, hf, htc, hj, hc, hr, h2]
    · refine ⟨?_, ?_, ?_⟩ <;> simp [process_query, h1, hf]

/-! ### C6 -/

/-- C6: `connect_to_server` picks `python` for a `.py` script and `node`
for a `.js` script; for any other extension it fails with the
unsupported-script-type error, whose outcome constructor carries no spawn
— the subprocess is never created. -/
theorem connect_extension_dispatch (p : List Char) :
    (List.isSuffixOf ".py".toList p = true →
        connect_to_server p = ConnectOutcome.spawned "python" [p]) ∧
    (List.isSuffixOf ".js".toList p = true →
        connect_to_server p = ConnectOutcome.spawned "node" [p]) ∧
    (List.isSuffixOf ".py".toList p = false →
        List.isSuffixOf ".js".toList p = false →
        connect_to_server p = ConnectOutcome.unsupportedScriptType) := by
  refine ⟨fun hpy => ?_, fun hjs => ?_, fun hpy hjs => ?_⟩
  · simp only [connect_to_server]
    rw [hpy]
    rfl
  · have hpy : List.isSuffixOf ".py".toList p = false := by
      cases hb : List.isSuffixOf ".py".toList p with
      | false => rfl
      | true =>
        exfalso
        have s1 : ".py".toList <:+ p := List.isSuffixOf_iff_suffix.mp hb
        have s2 : ".js".toList <:+ p := List.isSuffixOf_iff_suffix.mp hjs
        have heq : ".py".toList = ".js".toList := suffix_unique s1 s2 (by decide)
        exact absurd heq (by decide)
    simp only [connect_to_server]
    rw [hpy, hjs]
    rfl
  · simp only [connect_to_server]
    rw [hpy, hjs]
    rfl

/-- Witness for C6 at three concrete script paths. -/
theorem connect_extension_dispatch_witness :
    connect_to_server "weather.py".toList
        = ConnectOutcome.spawned "python" ["weather.py".toList] ∧
    connect_to_server "weather.js".toList
        = ConnectOutcome.spawned "node" ["weather.js".toList] ∧
    connect_to_server "weather.txt".toList
        = ConnectOutcome.unsupportedScriptType :=
  ⟨(connect_extension_dispatch "weather.py".toList).1 (by decide),
   (connect_extension_dispatch "weather.js".toList).2.1 (by decide),
   (connect_extension_dispatch "weather.txt".toList).2.2 (by decide) (by decide)⟩

/-! ### C7 -/

/-- C7: an input line whose stripped, lowercased value is `quit` breaks
the loop immediately: no further event occurs, the Orchestrator is not
invoked, and `main`'s `finally` block performs exactly one cleanup. -/
theorem quit_terminates_loop (env : Env) (line : List Char) (rest : List (List Char))
    (h : lower (strip line) = "quit".toList) :
    chat_loop env (line :: rest) = [TurnEvent.quitEvent] ∧
    orchestrator_invocations (chat_loop env (line :: rest)) = 0 ∧
    (main_run env (line :: rest)).cleanup_count = 1 := by
  have hloop : chat_loop env (line :: rest) = [TurnEvent.quitEvent] := by
    simp [chat_loop, h]
  exact ⟨hloop, by rw [hloop]; rfl, rfl⟩

/-- Witness for C7: a case-variant quit with surrounding whitespace. -/
theorem quit_terminates_loop_witness :
    chat_loop envPlain ["  Quit  ".toList, "next".toList] = [TurnEvent.quitEvent] ∧
    orchestrator_invocations (chat_loop envPlain ["  Quit  ".toList, "next".toList]) = 0 ∧
    (main_run envPlain ["  Quit  ".toList, "next".toList]).cleanup_count = 1 :=
  quit_terminates_loop envPlain "  Quit  ".toList ["next".toList] (by decide)

/-! ### C8 -/

/-- Like `envTool`, but every chat-completions call fails. -/
def envAPIErr : Env :=
  { envTool with chat_completions_create := fun _ _ => Except.error "rate limited" }

/-- C8: when a turn's `process_query` raises, the loop's per-turn handler
catches it, records the user-visible error report, and continues with the
remaining input lines — the loop (and process) does not exit. -/
theorem per_turn_error_caught (env : Env) (line : List Char) (rest : List (List Char))
    (e : QueryError)
    (hq : ¬ lower (strip line) = "quit".toList)
    (he : (process_query env (String.mk (strip line))).result = Except.error e) :
    chat_loop env (line :: rest) =
      TurnEvent.errorPrinted (String.mk (strip line))
          (process_query env (String.mk (strip line))) e
        :: chat_loop env rest := by
  simp only [chat_loop]
  rw [if_neg hq, he]

/-- Witness for C8: an upstream API failure is reported and the loop goes
on to the next line. -/
theorem per_turn_error_caught_witness :
    chat_loop envAPIErr ["hello".toList, "again".toList] =
      TurnEvent.errorPrinted (String.mk (strip "hello".toList))
          (process_query envAPIErr (String.mk (strip "hello".toList)))
          (QueryError.upstreamAPIError "rate limited")
        :: chat_loop envAPIErr ["again".toList] :=
  per_turn_error_caught envAPIErr "hello".toList ["again".toList]
    (QueryError.upstreamAPIError "rate limited") (by decide) (by decide)

/-! ### C9 -/

/-- C9: the Tool Registry Adapter is a pure transformation producing one
schema entry per descriptor, in order, copying name, description and
input schema unchanged and tagging every entry with type `function`. -/
theorem available_tools_passthrough (tools : List MCPTool) :
    (available_tools tools).length = tools.length ∧
    ∀ i : Nat,
      ((available_tools tools)[i]?).map (fun entry => entry.function.name)
          = (tools[i]?).map MCPTool.name ∧
      ((available_tools tools)[i]?).map (fun entry => entry.function.description)
          = (tools[i]?).map MCPTool.description ∧
      ((available_tools tools)[i]?).map (fun entry => entry.function.input_schema)
          = (tools[i]?).map MCPTool.inputSchema ∧
      ((available_tools tools)[i]?).map OAITool.type
          = (tools[i]?).map (fun _ => "function") := by
  refine ⟨by simp [available_tools], fun i => ?_⟩
  cases h : tools[i]? <;>
    simp [available_tools, List.getElem?_map, h]
